import Mathlib

set_option maxRecDepth 20000

/-!
Shallow embedding of the text risk-scoring and escalation-recommendation
pipeline of `src/backend/src/ml/models/training/prediction.py`
(class `AIModelManager`).

Conventions of the embedding:
* Python numbers are modelled as exact rationals (`ℚ`); Python's `round(x, n)`
  (round-half-to-even) becomes `roundTo n x`.
* The externally supplied ML models (threat classifier, cyberbullying
  classifier, anomaly detector, escalation sequence model) are abstract
  functions `List ℚ → ℚ`; an absent model is `none`.
* Python `str.split()` (whitespace split, runs collapsed, no empty tokens)
  is `pySplit`; `str.lower()` is `pyLower`; `word in s` substring tests are
  `strHasSub`.
* A Python function that can raise is modelled with `Option`: `none` is the
  raised exception (here only `ZeroDivisionError` in `_extract_indicators`
  when `len(text) = 0`).
-/

namespace CyberSafety

/-- Python `str.lower()` restricted to the character-wise ASCII case map. -/
def pyLower (s : String) : String := String.mk (s.data.map Char.toLower)

/-- Accumulating worker for `pySplit`: `acc` holds the current token reversed. -/
def pySplitAux : List Char → List Char → List String
  | [], [] => []
  | [], acc => [String.mk acc.reverse]
  | c :: cs, acc =>
    if c.isWhitespace then
      match acc with
      | [] => pySplitAux cs []
      | _ :: _ => String.mk acc.reverse :: pySplitAux cs []
    else pySplitAux cs (c :: acc)

/-- Python `str.split()` with no argument: split on whitespace runs, never
producing empty tokens. -/
def pySplit (s : String) : List String := pySplitAux s.data []

/-- Does `p` occur at the head of `s`? -/
def listHasPre : List Char → List Char → Bool
  | [], _ => true
  | _ :: _, [] => false
  | p :: ps, c :: cs => p == c && listHasPre ps cs

/-- Does `pat` occur as a contiguous run inside `s`? -/
def listHasSub (pat : List Char) : List Char → Bool
  | [] => pat.isEmpty
  | c :: cs => listHasPre pat (c :: cs) || listHasSub pat cs

/-- Python `pat in s` on strings: contiguous substring occurrence. -/
def strHasSub (pat s : String) : Bool := listHasSub pat.data s.data

/-- Python `sum(1 for i in range(len(text)-2) if text[i] == text[i+1] == text[i+2])`:
the number of indices starting a run of three equal consecutive characters. -/
def repeatedRuns : List Char → Nat
  | a :: b :: c :: rest => (if a = b ∧ b = c then 1 else 0) + repeatedRuns (b :: c :: rest)
  | _ => 0

/-- Round a rational to the nearest integer, ties to the even integer
(the rounding used by Python's builtin `round`). -/
def roundHalfEven (q : ℚ) : ℤ :=
  let f := ⌊q⌋
  let r := q - f
  if r < 1/2 then f
  else if 1/2 < r then f + 1
  else if f % 2 = 0 then f else f + 1

/-- Python `round(x, n)`. -/
def roundTo (n : ℕ) (x : ℚ) : ℚ := (roundHalfEven (x * 10 ^ n) : ℚ) / 10 ^ n

/-- The model handles held by `AIModelManager.__init__` / `load_models`:
each classifier exposes `predict_proba([features])[0][1]` (class-1
probability), the anomaly detector `decision_function([features])[0]`, and
the escalation LSTM `predict(reshaped)[0][0]`; all are abstracted to
`List ℚ → ℚ`, `none` when not loaded. -/
structure AIModelManager where
  threat_model : Option (List ℚ → ℚ)
  cyberbullying_model : Option (List ℚ → ℚ)
  anomaly_model : Option (List ℚ → ℚ)
  escalation_model : Option (List ℚ → ℚ)

/-- The record returned by `analyze_text`, field for field. -/
structure AnalysisResult where
  risk_score : ℚ
  threat_probability : ℚ
  bullying_probability : ℚ
  anomaly_score : ℚ
  escalation_predicted : Bool
  escalation_probability : ℚ
  key_indicators : List String
  recommended_action : String
deriving DecidableEq, Repr

/-- The 12 language codes keyed in `_get_threat_keywords`. -/
def supportedLanguages : List String :=
  ["en", "hi", "ta", "te", "ml", "kn", "mr", "bn", "gu", "pa", "or", "ur"]

/-- The English threat keyword set of `_get_threat_keywords`. -/
def threatKeywordsEn : List String :=
  ["kill", "hurt", "die", "threat", "harm", "danger", "attack"]

/-- `_get_threat_keywords`: the per-language keyword table; `dict.get`
falls back to the English set for any unknown key. -/
def getThreatKeywords (language : String) : List String :=
  if language = "en" then threatKeywordsEn
  else if language = "hi" then ["मार", "चोट", "खतरा", "हानि", "धमकी"]
  else if language = "ta" then ["கொல்", "காயம்", "அபாயம்", "தீங்கு"]
  else if language = "te" then ["చంపు", "గాయం", "ప్రమాదం", "నష్టం"]
  else if language = "ml" then ["കൊല്ലുക", "പരിക്ക്", "അപകടം", "നഷ്ടം"]
  else if language = "kn" then ["ಕೊಲ್ಲು", "ಗಾಯ", "ಅಪಾಯ", "ನಷ್ಟ"]
  else if language = "mr" then ["मार", "इजा", "धोका", "नुकसान"]
  else if language = "bn" then ["হত্যা", "আঘাত", "বিপদ", "ক্ষতি"]
  else if language = "gu" then ["મારી", "ઈજા", "ખતરો", "નુકસાન"]
  else if language = "pa" then ["ਮਾਰ", "ਚੋਟ", "ਖਤਰਾ", "ਨੁਕਸਾਨ"]
  else if language = "or" then ["ମାର", "ଆଘାତ", "ବିପଦ", "କ୍ଷତି"]
  else if language = "ur" then ["مار", "چوٹ", "خطرہ", "نقصان"]
  else threatKeywordsEn

/-- The sentiment word list `positive_words` of `_extract_text_features`. -/
def positiveWords : List String := ["good", "happy", "great", "love", "like"]

/-- The sentiment word list `negative_words` of `_extract_text_features`. -/
def negativeWords : List String := ["bad", "hate", "kill", "hurt", "danger"]

/-- Body of `_extract_text_features` once the keyword set has been looked
up: the 12 `features.append(...)` lines, in source order. -/
def extractTextFeaturesKw (text : String) (threat_words : List String) : List ℚ :=
  let words := pySplit text
  let lowerWords := pySplit (pyLower text)
  let threat_count : ℕ := lowerWords.countP (fun w => threat_words.contains w)
  let pos_count : ℕ := lowerWords.countP (fun w => positiveWords.contains w)
  let neg_count : ℕ := lowerWords.countP (fun w => negativeWords.contains w)
  let caps_count : ℕ := (text.data.filter Char.isUpper).length
  [ (text.length : ℚ),
    (words.length : ℚ),
    (words.dedup.length : ℚ) / ((max words.length 1 : ℕ) : ℚ),
    (threat_count : ℚ),
    (threat_count : ℚ) / ((max words.length 1 : ℕ) : ℚ),
    (pos_count : ℚ),
    (neg_count : ℚ),
    (neg_count : ℚ) - (pos_count : ℚ),
    (caps_count : ℚ) / ((max text.length 1 : ℕ) : ℚ),
    (text.data.count '!' : ℚ),
    (text.data.count '?' : ℚ),
    (repeatedRuns text.data : ℚ) ]

/-- `_extract_text_features(text, language)`. -/
def extractTextFeatures (text language : String) : List ℚ :=
  extractTextFeaturesKw text (getThreatKeywords language)

/-- The `x if model else default` idiom of `analyze_text`: apply the model
when present, otherwise the stated neutral default. -/
def modelProb (m : Option (List ℚ → ℚ)) (default : ℚ) (features : List ℚ) : ℚ :=
  match m with
  | some f => f features
  | none => default

/-- The reshape/pad/truncate of `predict_escalation`: the feature vector is
stretched or clipped to exactly 10 time steps, zero-padded on the right. -/
def padTrunc (features : List ℚ) : List ℚ :=
  features.take 10 ++ List.replicate (10 - features.length) 0

/-- `predict_escalation(features)`: LSTM prediction on the padded/truncated
vector, `0.5` when no escalation model is loaded. -/
def predictEscalation (mgr : AIModelManager) (features : List ℚ) : ℚ :=
  match mgr.escalation_model with
  | some m => m (padTrunc features)
  | none => 1/2

/-- Condition of the violent-language check of `_extract_indicators`. -/
def violentCond (text : String) : Bool :=
  strHasSub "kill" (pyLower text) || strHasSub "murder" (pyLower text) ||
    strHasSub "harm" (pyLower text)

/-- Condition of the self-harm check of `_extract_indicators`. -/
def selfHarmCond (text : String) : Bool :=
  strHasSub "die" (pyLower text) || strHasSub "suicide" (pyLower text) ||
    strHasSub "end life" (pyLower text)

/-- Condition of the excessive-exclamation check of `_extract_indicators`. -/
def exclaimCond (text : String) : Bool :=
  (pyLower text).data.count '!' > 3

/-- Condition of the excessive-capitalization check of `_extract_indicators`;
only evaluated when `text` is nonempty (the source divides by `len(text)`
with no floor). -/
def capsCond (text : String) : Bool :=
  ((text.data.filter Char.isUpper).length : ℚ) / (text.length : ℚ) > 1/2

/-- `_extract_indicators(text, language)`. The fourth check divides by
`len(text)` with no guard, so on empty text the Python code raises
`ZeroDivisionError`; that raise is modelled as `none`. `language` is
accepted and ignored, as in the source. -/
def extractIndicators (text language : String) : Option (List String) :=
  let l1 := if violentCond text then ["Violent language detected"] else []
  let l2 := if selfHarmCond text then ["Self-harm references detected"] else []
  let l3 := if exclaimCond text then ["Excessive exclamation marks"] else []
  if text.length = 0 then none
  else
    let l4 := if capsCond text then ["Excessive capitalization (shouting)"] else []
    some (l1 ++ l2 ++ l3 ++ l4)

/-- `_get_recommendation(risk_score, escalation_prob)`. -/
def getRecommendation (risk_score escalation_prob : ℚ) : String :=
  if risk_score > 80 ∨ escalation_prob > 8/10 then "IMMEDIATE_ESCALATION"
  else if risk_score > 60 then "SCHEDULE_POLICE_REVIEW"
  else if risk_score > 40 then "MONITOR_CLOSELY"
  else "SAFE_ZONE"

/-- `analyze_text(text, language)`: the full pipeline. `none` models a
propagated exception (only possible from `_extract_indicators` on empty
text). -/
def analyzeText (mgr : AIModelManager) (text language : String) :
    Option AnalysisResult :=
  let features := extractTextFeatures text language
  let threat_prob := modelProb mgr.threat_model (1/2) features
  let bullying_prob := modelProb mgr.cyberbullying_model (1/2) features
  let anomaly_score := modelProb mgr.anomaly_model 0 features
  let risk_score := (threat_prob * (4/10) + bullying_prob * (4/10) +
    (1 - anomaly_score) * (2/10)) * 100
  let escalation_pred := predictEscalation mgr features
  (extractIndicators text language).map fun inds =>
    { risk_score := roundTo 2 risk_score
      threat_probability := roundTo 4 threat_prob
      bullying_probability := roundTo 4 bullying_prob
      anomaly_score := roundTo 4 anomaly_score
      escalation_predicted := decide (escalation_pred > 7/10)
      escalation_probability := roundTo 4 escalation_pred
      key_indicators := inds
      recommended_action := getRecommendation risk_score escalation_pred }

/-- The unrounded risk score of `analyze_text` as a standalone quantity. -/
def rawRiskScore (mgr : AIModelManager) (text language : String) : ℚ :=
  let features := extractTextFeatures text language
  (modelProb mgr.threat_model (1/2) features * (4/10) +
    modelProb mgr.cyberbullying_model (1/2) features * (4/10) +
    (1 - modelProb mgr.anomaly_model 0 features) * (2/10)) * 100

/-! ### Concrete model configurations used to evaluate the pipeline -/

/-- No model loaded: every signal takes its neutral fallback. -/
def mgrNone : AIModelManager := ⟨none, none, none, none⟩

/-- Classifiers answering probability 1 and an anomaly detector answering
-1, all within the documented signal ranges. -/
def mgrFullRisk : AIModelManager :=
  ⟨some fun _ => 1, some fun _ => 1, some fun _ => -1, none⟩

/-- Only an escalation model, answering 0.70004: above the 0.7 threshold,
but rounding to exactly 0.7 at 4 decimal places. -/
def mgrEscEdge : AIModelManager :=
  ⟨none, none, none, some fun _ => 70004/100000⟩

/-- Models making the unrounded risk score 80.004: above the 80 threshold,
but rounding to exactly 80.0 at 2 decimal places. -/
def mgrRiskEdge : AIModelManager :=
  ⟨some fun _ => 9/10, some fun _ => 9/10, some fun _ => 5998/10000, none⟩

/-- The record `analyze_text` returns on the text `"a"` when no model is
loaded: all four neutral defaults, risk 60, no indicators. -/
def rNone : AnalysisResult :=
  ⟨60, 1/2, 1/2, 0, false, 1/2, [], "MONITOR_CLOSELY"⟩

/-! ### General lemmas about the embedding -/

theorem analyzeText_unfold (mgr : AIModelManager) (text language : String) :
    analyzeText mgr text language = (extractIndicators text language).map fun inds =>
      { risk_score := roundTo 2 ((modelProb mgr.threat_model (1/2) (extractTextFeatures text language) * (4/10) +
          modelProb mgr.cyberbullying_model (1/2) (extractTextFeatures text language) * (4/10) +
          (1 - modelProb mgr.anomaly_model 0 (extractTextFeatures text language)) * (2/10)) * 100)
        threat_probability := roundTo 4 (modelProb mgr.threat_model (1/2) (extractTextFeatures text language))
        bullying_probability := roundTo 4 (modelProb mgr.cyberbullying_model (1/2) (extractTextFeatures text language))
        anomaly_score := roundTo 4 (modelProb mgr.anomaly_model 0 (extractTextFeatures text language))
        escalation_predicted := decide (predictEscalation mgr (extractTextFeatures text language) > 7/10)
        escalation_probability := roundTo 4 (predictEscalation mgr (extractTextFeatures text language))
        key_indicators := inds
        recommended_action := getRecommendation
          ((modelProb mgr.threat_model (1/2) (extractTextFeatures text language) * (4/10) +
            modelProb mgr.cyberbullying_model (1/2) (extractTextFeatures text language) * (4/10) +
            (1 - modelProb mgr.anomaly_model 0 (extractTextFeatures text language)) * (2/10)) * 100)
          (predictEscalation mgr (extractTextFeatures text language)) } := rfl

theorem analyzeText_some_eq (mgr : AIModelManager) (text language : String)
    (r : AnalysisResult) (hok : analyzeText mgr text language = some r) :
    ∃ inds, extractIndicators text language = some inds ∧
      r =
      { risk_score := roundTo 2 ((modelProb mgr.threat_model (1/2) (extractTextFeatures text language) * (4/10) +
          modelProb mgr.cyberbullying_model (1/2) (extractTextFeatures text language) * (4/10) +
          (1 - modelProb mgr.anomaly_model 0 (extractTextFeatures text language)) * (2/10)) * 100)
        threat_probability := roundTo 4 (modelProb mgr.threat_model (1/2) (extractTextFeatures text language))
        bullying_probability := roundTo 4 (modelProb mgr.cyberbullying_model (1/2) (extractTextFeatures text language))
        anomaly_score := roundTo 4 (modelProb mgr.anomaly_model 0 (extractTextFeatures text language))
        escalation_predicted := decide (predictEscalation mgr (extractTextFeatures text language) > 7/10)
        escalation_probability := roundTo 4 (predictEscalation mgr (extractTextFeatures text language))
        key_indicators := inds
        recommended_action := getRecommendation
          ((modelProb mgr.threat_model (1/2) (extractTextFeatures text language) * (4/10) +
            modelProb mgr.cyberbullying_model (1/2) (extractTextFeatures text language) * (4/10) +
            (1 - modelProb mgr.anomaly_model 0 (extractTextFeatures text language)) * (2/10)) * 100)
          (predictEscalation mgr (extractTextFeatures text language)) } := by
  rw [analyzeText_unfold] at hok
  cases h : extractIndicators text language with
  | none => rw [h] at hok; simp at hok
  | some inds =>
    rw [h] at hok
    simp only [Option.map_some', Option.some.injEq] at hok
    exact ⟨inds, rfl, hok.symm⟩

theorem floor_le_roundHalfEven (q : ℚ) : ⌊q⌋ ≤ roundHalfEven q := by
  simp only [roundHalfEven]
  split_ifs <;> omega

theorem roundHalfEven_le_ceil (q : ℚ) : roundHalfEven q ≤ ⌈q⌉ := by
  simp only [roundHalfEven]
  split_ifs with h1 h2 h3
  · exact Int.floor_le_ceil q
  · have h : ⌊q⌋ < ⌈q⌉ := Int.lt_ceil.mpr (by linarith)
    omega
  · exact Int.floor_le_ceil q
  · have h : ⌊q⌋ < ⌈q⌉ := Int.lt_ceil.mpr (by linarith [not_lt.mp h1])
    omega

theorem roundTo_nonneg {n : ℕ} {x : ℚ} (h : 0 ≤ x) : 0 ≤ roundTo n x := by
  unfold roundTo
  apply div_nonneg _ (by positivity)
  have h0 : (0 : ℤ) ≤ ⌊x * 10 ^ n⌋ :=
    Int.floor_nonneg.mpr (mul_nonneg h (by positivity))
  exact_mod_cast le_trans h0 (floor_le_roundHalfEven (x * 10 ^ n))

theorem roundTo_le_int {n : ℕ} {x : ℚ} {B : ℤ} (h : x ≤ B) : roundTo n x ≤ B := by
  unfold roundTo
  rw [div_le_iff₀ (by positivity : (0:ℚ) < 10 ^ n)]
  have h1 : roundHalfEven (x * 10 ^ n) ≤ ⌈x * 10 ^ n⌉ := roundHalfEven_le_ceil _
  have h2 : ⌈x * 10 ^ n⌉ ≤ B * 10 ^ n := by
    rw [Int.ceil_le]
    push_cast
    exact mul_le_mul_of_nonneg_right h (by positivity)
  calc (roundHalfEven (x * 10 ^ n) : ℚ)
      ≤ ((B * 10 ^ n : ℤ) : ℚ) := by exact_mod_cast le_trans h1 h2
    _ = (B : ℚ) * 10 ^ n := by push_cast; ring

theorem string_eq_empty_of_length_eq_zero {s : String} (h : s.length = 0) :
    s = "" := by
  cases s with
  | mk data =>
    cases data with
    | nil => rfl
    | cons c cs => simp [String.length] at h

theorem ite_singleton_sublist {α : Type} (c : Prop) [Decidable c] (x : α) :
    List.Sublist (if c then [x] else []) [x] := by
  split
  · exact List.Sublist.refl _
  · exact List.nil_sublist _

theorem getThreatKeywords_unsupported {language : String}
    (h : language ∉ supportedLanguages) :
    getThreatKeywords language = threatKeywordsEn := by
  simp only [supportedLanguages, List.mem_cons, List.not_mem_nil, or_false,
    not_or] at h
  obtain ⟨h1, h2, h3, h4, h5, h6, h7, h8, h9, h10, h11, h12⟩ := h
  simp only [getThreatKeywords, if_neg h1, if_neg h2, if_neg h3, if_neg h4,
    if_neg h5, if_neg h6, if_neg h7, if_neg h8, if_neg h9, if_neg h10,
    if_neg h11, if_neg h12]

/-! ### The claims -/

/-- C2: the spec requires the indicator extractor to return for every text,
including the empty string, substituting a denominator floor of 1 in the
uppercase-ratio check. The code divides by `len(text)` with no floor
(`prediction.py` line 202), so on the empty string it raises
`ZeroDivisionError` (modelled as `none`): the code contradicts the claim at
the failing input `""`. -/
theorem C2_indicators_empty_text_raises : extractIndicators "" "en" = none := by
  decide

/-- C5: the spec says absence of any model never raises and the neutral
defaults (threat 0.5, bullying 0.5, anomaly 0, escalation 0.5) are
substituted. With all four models absent, the defaults are indeed
substituted on nonempty text (second conjunct: all four fallbacks appear in
the result for `"a"`), but on the empty string `analyze_text` still raises
`ZeroDivisionError` through `_extract_indicators` (first conjunct), so
"does not raise" fails for `text = ""`. -/
theorem C5_analyzeText_empty_raises_despite_fallbacks :
    analyzeText mgrNone "" "en" = none ∧
    analyzeText mgrNone "a" "en" = some rNone := by
  constructor
  · with_unfolding_all decide
  · with_unfolding_all decide

/-- C7 (counterexample): the feature extractor does not return 11 values;
already on the empty string the vector has length 12 (the source appends
12 features, the last being the repeated-character count). -/
theorem C7_feature_count_counterexample :
    (extractTextFeatures "" "en").length = 12 ∧
    ¬ (extractTextFeatures "" "en").length = 11 := by
  constructor <;> decide

/-- C7 (amended): for every text and language the feature extractor returns
an ordered sequence of exactly 12 numeric values; this length is the same
fixed constant across all calls. -/
theorem C7_feature_vector_length :
    ∀ text language : String, (extractTextFeatures text language).length = 12 :=
  fun _ _ => rfl

/-- C8: every language code outside the supported 12-element set is mapped
to the English threat keyword set, and consequently feature extraction with
such a code yields exactly the feature vector of language `"en"`. -/
theorem C8_unsupported_language_falls_back (text language : String)
    (h : language ∉ supportedLanguages) :
    getThreatKeywords language = getThreatKeywords "en" ∧
    extractTextFeatures text language = extractTextFeatures text "en" := by
  have hk : getThreatKeywords language = threatKeywordsEn :=
    getThreatKeywords_unsupported h
  have he : getThreatKeywords "en" = threatKeywordsEn := by
    simp [getThreatKeywords]
  refine ⟨hk.trans he.symm, ?_⟩
  rw [extractTextFeatures, extractTextFeatures, hk, he]

/-- C8 (witness): the unsupported code `"fr"` extracts the same features as
`"en"`. -/
theorem C8_witness :
    "fr" ∉ supportedLanguages ∧
    extractTextFeatures "kill you" "fr" = extractTextFeatures "kill you" "en" :=
  ⟨by decide, (C8_unsupported_language_falls_back "kill you" "fr" (by decide)).2⟩

/-- C4: the recommendation function is the ordered decision list with strict
comparisons (first conjunct, all four tiers), and at the boundary
`risk_score = 80` with escalation probability at most 0.8 it yields
`SCHEDULE_POLICE_REVIEW` while `risk_score = 80.01` yields
`IMMEDIATE_ESCALATION` (second conjunct). -/
theorem C4_recommendation_decision_list :
    (∀ risk_score escalation_prob : ℚ,
      ((risk_score > 80 ∨ escalation_prob > 8/10) →
        getRecommendation risk_score escalation_prob = "IMMEDIATE_ESCALATION") ∧
      (¬(risk_score > 80 ∨ escalation_prob > 8/10) → risk_score > 60 →
        getRecommendation risk_score escalation_prob = "SCHEDULE_POLICE_REVIEW") ∧
      (¬(risk_score > 80 ∨ escalation_prob > 8/10) → ¬(risk_score > 60) →
        risk_score > 40 →
        getRecommendation risk_score escalation_prob = "MONITOR_CLOSELY") ∧
      (¬(risk_score > 80 ∨ escalation_prob > 8/10) → ¬(risk_score > 60) →
        ¬(risk_score > 40) →
        getRecommendation risk_score escalation_prob = "SAFE_ZONE")) ∧
    (∀ escalation_prob : ℚ, escalation_prob ≤ 8/10 →
      getRecommendation 80 escalation_prob = "SCHEDULE_POLICE_REVIEW" ∧
      getRecommendation (8001/100) escalation_prob = "IMMEDIATE_ESCALATION") := by
  constructor
  · intro r e
    refine ⟨fun h => ?_, fun h h60 => ?_, fun h h60 h40 => ?_,
      fun h h60 h40 => ?_⟩
    · unfold getRecommendation
      rw [if_pos h]
    · unfold getRecommendation
      rw [if_neg h, if_pos h60]
    · unfold getRecommendation
      rw [if_neg h, if_neg h60, if_pos h40]
    · unfold getRecommendation
      rw [if_neg h, if_neg h60, if_neg h40]
  · intro e he
    have hne : ¬((80:ℚ) > 80 ∨ e > 8/10) := by
      push_neg
      exact ⟨le_refl _, he⟩
    constructor
    · unfold getRecommendation
      rw [if_neg hne, if_pos (by norm_num : (80:ℚ) > 60)]
    · unfold getRecommendation
      rw [if_pos (Or.inl (by norm_num : (8001:ℚ)/100 > 80))]

/-- C4 (witness): the two boundary instances at escalation probability 0.5. -/
theorem C4_witness :
    (1:ℚ)/2 ≤ 8/10 ∧
    getRecommendation 80 (1/2) = "SCHEDULE_POLICE_REVIEW" ∧
    getRecommendation (8001/100) (1/2) = "IMMEDIATE_ESCALATION" :=
  ⟨by norm_num, (C4_recommendation_decision_list.2 (1/2) (by norm_num)).1,
    (C4_recommendation_decision_list.2 (1/2) (by norm_num)).2⟩

/-- C3: whenever `analyze_text` returns a record, its `risk_score` field is
`round(100 * (0.4 * threat + 0.4 * bullying + 0.2 * (1 - anomaly)), 2)`,
where threat/bullying/anomaly are the model outputs on the extracted
features (or the fallbacks 0.5/0.5/0). -/
theorem C3_risk_score_formula (mgr : AIModelManager) (text language : String)
    (r : AnalysisResult) (hok : analyzeText mgr text language = some r) :
    r.risk_score = roundTo 2 (100 *
      ((4/10) * modelProb mgr.threat_model (1/2) (extractTextFeatures text language) +
       (4/10) * modelProb mgr.cyberbullying_model (1/2) (extractTextFeatures text language) +
       (2/10) * (1 - modelProb mgr.anomaly_model 0 (extractTextFeatures text language)))) := by
  obtain ⟨inds, hinds, rfl⟩ := analyzeText_some_eq mgr text language r hok
  show roundTo 2 _ = roundTo 2 _
  congr 1
  ring

/-- C3 (witness): the formula instantiated at no models and text `"a"`:
`round(100 * (0.4 * 0.5 + 0.4 * 0.5 + 0.2 * 1), 2) = 60`. -/
theorem C3_witness :
    rNone.risk_score = roundTo 2 (100 *
      ((4/10) * modelProb mgrNone.threat_model (1/2) (extractTextFeatures "a" "en") +
       (4/10) * modelProb mgrNone.cyberbullying_model (1/2) (extractTextFeatures "a" "en") +
       (2/10) * (1 - modelProb mgrNone.anomaly_model 0 (extractTextFeatures "a" "en")))) :=
  C3_risk_score_formula mgrNone "a" "en" rNone (by with_unfolding_all decide)

/-- C1 (counterexample): with threat probability 1 and bullying probability 1
(both in [0,1]) and anomaly score -1 (in the documented range [-1,1]),
`analyze_text` returns `risk_score = 120`, violating the claimed upper
bound 100. -/
theorem C1_risk_range_counterexample :
    modelProb mgrFullRisk.threat_model (1/2) (extractTextFeatures "hi" "en") = 1 ∧
    modelProb mgrFullRisk.cyberbullying_model (1/2) (extractTextFeatures "hi" "en") = 1 ∧
    modelProb mgrFullRisk.anomaly_model 0 (extractTextFeatures "hi" "en") = -1 ∧
    (analyzeText mgrFullRisk "hi" "en").map (fun r => r.risk_score) = some 120 ∧
    ¬ ((120:ℚ) ≤ 100) := by
  refine ⟨rfl, rfl, rfl, ?_, by norm_num⟩
  rw [show analyzeText mgrFullRisk "hi" "en" =
      some ⟨120, 1, 1, -1, false, 1/2, [], "IMMEDIATE_ESCALATION"⟩ from by
        with_unfolding_all decide]
  rfl

/-- C1 (amended): when the three sub-signals are in their documented ranges
(threat and bullying in [0,1], anomaly in [-1,1]) the returned risk_score
satisfies `0 ≤ risk_score ≤ 120`; the claimed bound 100 holds exactly when
the anomaly score is additionally nonnegative. -/
theorem C1_risk_score_bounds (mgr : AIModelManager) (text language : String)
    (r : AnalysisResult) (hok : analyzeText mgr text language = some r)
    (ht0 : 0 ≤ modelProb mgr.threat_model (1/2) (extractTextFeatures text language))
    (ht1 : modelProb mgr.threat_model (1/2) (extractTextFeatures text language) ≤ 1)
    (hb0 : 0 ≤ modelProb mgr.cyberbullying_model (1/2) (extractTextFeatures text language))
    (hb1 : modelProb mgr.cyberbullying_model (1/2) (extractTextFeatures text language) ≤ 1)
    (ha0 : -1 ≤ modelProb mgr.anomaly_model 0 (extractTextFeatures text language))
    (ha1 : modelProb mgr.anomaly_model 0 (extractTextFeatures text language) ≤ 1) :
    0 ≤ r.risk_score ∧ r.risk_score ≤ 120 ∧
      (0 ≤ modelProb mgr.anomaly_model 0 (extractTextFeatures text language) →
        r.risk_score ≤ 100) := by
  obtain ⟨inds, hinds, rfl⟩ := analyzeText_some_eq mgr text language r hok
  dsimp only
  refine ⟨roundTo_nonneg (by linarith), ?_, fun ha2 => ?_⟩
  · have h120 := roundTo_le_int (n := 2) (B := 120)
      (x := (modelProb mgr.threat_model (1/2) (extractTextFeatures text language) * (4/10) +
        modelProb mgr.cyberbullying_model (1/2) (extractTextFeatures text language) * (4/10) +
        (1 - modelProb mgr.anomaly_model 0 (extractTextFeatures text language)) * (2/10)) * 100)
      (by push_cast; linarith)
    exact_mod_cast h120
  · have h100 := roundTo_le_int (n := 2) (B := 100)
      (x := (modelProb mgr.threat_model (1/2) (extractTextFeatures text language) * (4/10) +
        modelProb mgr.cyberbullying_model (1/2) (extractTextFeatures text language) * (4/10) +
        (1 - modelProb mgr.anomaly_model 0 (extractTextFeatures text language)) * (2/10)) * 100)
      (by push_cast; linarith)
    exact_mod_cast h100

/-- C1 (witness): with no models loaded all sub-signals are within range and
the bounds hold for the record returned on `"a"`. -/
theorem C1_witness :
    analyzeText mgrNone "a" "en" = some rNone ∧
    (0 ≤ rNone.risk_score ∧ rNone.risk_score ≤ 120 ∧
      (0 ≤ modelProb mgrNone.anomaly_model 0 (extractTextFeatures "a" "en") →
        rNone.risk_score ≤ 100)) := by
  have hok : analyzeText mgrNone "a" "en" = some rNone := by
    with_unfolding_all decide
  exact ⟨hok, C1_risk_score_bounds mgrNone "a" "en" rNone hok
    (by with_unfolding_all decide) (by with_unfolding_all decide)
    (by with_unfolding_all decide) (by with_unfolding_all decide)
    (by with_unfolding_all decide) (by with_unfolding_all decide)⟩

/-- C6 (counterexample): with an escalation model answering 0.70004, the
returned record has `escalation_predicted = true` (the unrounded value
exceeds 0.7) while the returned `escalation_probability` field is the
rounded 0.7, which is not strictly greater than 0.7 — so the claimed
"iff the escalation_probability field > 0.7" fails. -/
theorem C6_escalation_rounding_counterexample :
    (analyzeText mgrEscEdge "hi" "en").map
      (fun r => (r.escalation_predicted, r.escalation_probability,
        decide (r.escalation_probability > 7/10))) = some (true, 7/10, false) := by
  rw [show analyzeText mgrEscEdge "hi" "en" =
      some ⟨60, 1/2, 1/2, 0, true, 7/10, [], "MONITOR_CLOSELY"⟩ from by
        with_unfolding_all decide]
  with_unfolding_all decide

/-- C6 (amended): `escalation_predicted` is true iff the unrounded
escalation probability (the output of `predict_escalation` on the extracted
features) exceeds 0.7 strictly; the comparison is made before the 4-decimal
rounding of the `escalation_probability` field. -/
theorem C6_escalation_predicted_iff (mgr : AIModelManager)
    (text language : String) (r : AnalysisResult)
    (hok : analyzeText mgr text language = some r) :
    r.escalation_predicted = true ↔
      predictEscalation mgr (extractTextFeatures text language) > 7/10 := by
  obtain ⟨inds, hinds, rfl⟩ := analyzeText_some_eq mgr text language r hok
  dsimp only
  exact decide_eq_true_iff

/-- C6 (witness): the equivalence instantiated at no models and text `"a"`
(both sides false: 0.5 is not above 0.7). -/
theorem C6_witness :
    rNone.escalation_predicted = true ↔
      predictEscalation mgrNone (extractTextFeatures "a" "en") > 7/10 :=
  C6_escalation_predicted_iff mgrNone "a" "en" rNone (by with_unfolding_all decide)

/-- C9: for every nonempty text the indicator extractor returns (without
raising) the list obtained by appending, in the fixed order
violent-language, self-harm, excessive-exclamation,
excessive-capitalization, the corresponding string exactly when its
condition holds; the list is a sublist of the canonical 4-element list (so
the order is independent of where the triggers occur in the string), has no
duplicates, and has at most 4 elements. -/
theorem C9_indicator_order (text language : String) (h : text ≠ "") :
    ∃ l, extractIndicators text language = some l ∧
      l = (if violentCond text then ["Violent language detected"] else []) ++
        (if selfHarmCond text then ["Self-harm references detected"] else []) ++
        (if exclaimCond text then ["Excessive exclamation marks"] else []) ++
        (if capsCond text then ["Excessive capitalization (shouting)"] else []) ∧
      List.Sublist l ["Violent language detected", "Self-harm references detected",
        "Excessive exclamation marks", "Excessive capitalization (shouting)"] ∧
      l.Nodup ∧ l.length ≤ 4 := by
  have hlen : ¬ text.length = 0 := fun h0 => h (string_eq_empty_of_length_eq_zero h0)
  have hsub : List.Sublist
      ((if violentCond text then ["Violent language detected"] else []) ++
        (if selfHarmCond text then ["Self-harm references detected"] else []) ++
        (if exclaimCond text then ["Excessive exclamation marks"] else []) ++
        (if capsCond text then ["Excessive capitalization (shouting)"] else []))
      ["Violent language detected", "Self-harm references detected",
        "Excessive exclamation marks", "Excessive capitalization (shouting)"] := by
    have s1 := ite_singleton_sublist (violentCond text = true) "Violent language detected"
    have s2 := ite_singleton_sublist (selfHarmCond text = true) "Self-harm references detected"
    have s3 := ite_singleton_sublist (exclaimCond text = true) "Excessive exclamation marks"
    have s4 := ite_singleton_sublist (capsCond text = true) "Excessive capitalization (shouting)"
    exact ((s1.append s2).append s3).append s4
  refine ⟨_, ?_, rfl, hsub, List.Nodup.sublist hsub (by decide), hsub.length_le⟩
  simp only [extractIndicators, if_neg hlen]

/-- C9 (witness): on `"KILL you!!!!"` the conditions for violent language
and excessive exclamation hold and the conclusion is obtained from the
theorem. -/
theorem C9_witness :
    "KILL you!!!!" ≠ "" ∧
    (∃ l, extractIndicators "KILL you!!!!" "en" = some l ∧
      l = (if violentCond "KILL you!!!!" then ["Violent language detected"] else []) ++
        (if selfHarmCond "KILL you!!!!" then ["Self-harm references detected"] else []) ++
        (if exclaimCond "KILL you!!!!" then ["Excessive exclamation marks"] else []) ++
        (if capsCond "KILL you!!!!" then ["Excessive capitalization (shouting)"] else []) ∧
      List.Sublist l ["Violent language detected", "Self-harm references detected",
        "Excessive exclamation marks", "Excessive capitalization (shouting)"] ∧
      l.Nodup ∧ l.length ≤ 4) :=
  ⟨by decide, C9_indicator_order "KILL you!!!!" "en" (by decide)⟩

/-- C10: the recommended action stored in the returned record is computed
from the unrounded risk score and unrounded escalation probability (first
conjunct), while the returned `risk_score` field is rounded to 2 decimals;
consequently (second conjunct) for models making the unrounded risk score
80.004 the returned record reports `risk_score = 80.0` together with
`IMMEDIATE_ESCALATION`, although the recommendation policy re-applied to the
returned rounded fields yields `SCHEDULE_POLICE_REVIEW`. -/
theorem C10_action_uses_unrounded_values :
    (∀ (mgr : AIModelManager) (text language : String) (r : AnalysisResult),
      analyzeText mgr text language = some r →
      r.recommended_action = getRecommendation (rawRiskScore mgr text language)
        (predictEscalation mgr (extractTextFeatures text language))) ∧
    (analyzeText mgrRiskEdge "hi" "en").map
      (fun r => (r.risk_score, r.recommended_action,
        getRecommendation r.risk_score r.escalation_probability)) =
      some (80, "IMMEDIATE_ESCALATION", "SCHEDULE_POLICE_REVIEW") := by
  constructor
  · intro mgr text language r hok
    obtain ⟨inds, hinds, rfl⟩ := analyzeText_some_eq mgr text language r hok
    rfl
  · have hEdge : analyzeText mgrRiskEdge "hi" "en" =
        some ⟨80, 9/10, 9/10, 5998/10000, false, 1/2, [], "IMMEDIATE_ESCALATION"⟩ := by
      rw [analyzeText_unfold]
      rw [show extractIndicators "hi" "en" = some [] from by with_unfolding_all decide]
      simp only [Option.map_some']
      have hm : mgrRiskEdge.threat_model = some fun _ => (9:ℚ)/10 := rfl
      have hb : mgrRiskEdge.cyberbullying_model = some fun _ => (9:ℚ)/10 := rfl
      have ha : mgrRiskEdge.anomaly_model = some fun _ => (5998:ℚ)/10000 := rfl
      have he : mgrRiskEdge.escalation_model = none := rfl
      simp only [hm, hb, ha, modelProb, predictEscalation, he]
      have hrisk : (((9:ℚ)/10) * (4/10) + ((9:ℚ)/10) * (4/10) +
          (1 - (5998:ℚ)/10000) * (2/10)) * 100 = 20001/250 := by norm_num
      rw [hrisk]
      have h1 : roundTo 2 (20001/250 : ℚ) = 80 := by
        rw [roundTo, roundHalfEven]
        norm_num
      have h2 : roundTo 4 ((9:ℚ)/10) = 9/10 := by
        rw [roundTo, roundHalfEven]
        norm_num
      have h3 : roundTo 4 ((5998:ℚ)/10000) = 5998/10000 := by
        rw [roundTo, roundHalfEven]
        norm_num
      have h4 : roundTo 4 ((1:ℚ)/2) = 1/2 := by
        rw [roundTo, roundHalfEven]
        norm_num
      have h5 : getRecommendation (20001/250) (1/2) = "IMMEDIATE_ESCALATION" := by
        rw [getRecommendation]
        norm_num
      rw [h1, h2, h3, h4, h5]
      norm_num
    rw [hEdge]
    with_unfolding_all decide

/-- C10 (witness): the unrounded-values property instantiated at no models
and text `"a"`. -/
theorem C10_witness :
    rNone.recommended_action = getRecommendation (rawRiskScore mgrNone "a" "en")
      (predictEscalation mgrNone (extractTextFeatures "a" "en")) :=
  C10_action_uses_unrounded_values.1 mgrNone "a" "en" rNone
    (by with_unfolding_all decide)

end CyberSafety
